import Mathlib

/-!
# DisguiseDrive — formal model of the envelope-encryption and access-gating core

Shallow embedding of the backend source:

* `backend/src/services/crypto.js`  (CryptoService)
* `backend/src/middleware/auth.js`  (verifyFolderAccess)
* the file routes (`POST /:folderId/files`, `GET /:id/encrypted`,
  `POST /:id/decrypt-key`, `DELETE /:id`) and the folder unlock route
  (`POST /:id/unlock`).

Byte sequences (Node `Buffer`s) are modelled as `List Nat` with the validity
predicate `Bytes` (every entry `< 256`).  Randomness (`crypto.randomBytes`)
is modelled by explicit entropy arguments.  The AES-256-GCM primitive and
the PBKDF2 key-derivation function are modelled as a parameter structure
`Prims` carrying the functional laws of the real primitives (decryption
inverts encryption under the same key/IV/AAD, ciphertext length equals
plaintext length, 16-byte tags, 32-byte derived keys); every definition that
uses them is parametric in `Prims`, and a small concrete instance `toyPrims`
is provided so closed statements can be evaluated.
-/

namespace DisguiseDrive

/-- A list of `Nat` is a valid byte sequence when every entry is `< 256`. -/
def Bytes (l : List Nat) : Prop := ∀ b ∈ l, b < 256

instance : DecidablePred Bytes := fun l =>
  inferInstanceAs (Decidable (∀ b ∈ l, b < 256))

/-! ## Base64 (Node `buf.toString('base64')` / `Buffer.from(s, 'base64')`)

`encryptFileKey` base64-encodes the key blob and the salt before they are
persisted, and `decryptFileKey` decodes them again, so the wrap/unwrap
round trip factors through base64.  We model the codec at the level of
ASCII character codes ('=' is 61). -/

/-- The standard base64 alphabet: sextet value to ASCII code. -/
def sextetChar (s : Nat) : Nat :=
  if s < 26 then 65 + s
  else if s < 52 then 97 + (s - 26)
  else if s < 62 then 48 + (s - 52)
  else if s = 62 then 43
  else 47

/-- Inverse of `sextetChar`: ASCII code back to sextet value. -/
def charSextet (c : Nat) : Nat :=
  if 65 ≤ c ∧ c ≤ 90 then c - 65
  else if 97 ≤ c ∧ c ≤ 122 then c - 97 + 26
  else if 48 ≤ c ∧ c ≤ 57 then c - 48 + 52
  else if c = 43 then 62
  else 63

/-- Base64-encode a byte list into ASCII codes (with '=' padding). -/
def b64encode : List Nat → List Nat
  | [] => []
  | [a] => [sextetChar (a / 4), sextetChar (a % 4 * 16), 61, 61]
  | [a, b] => [sextetChar (a / 4), sextetChar (a % 4 * 16 + b / 16),
               sextetChar (b % 16 * 4), 61]
  | a :: b :: c :: rest =>
      sextetChar (a / 4) :: sextetChar (a % 4 * 16 + b / 16) ::
      sextetChar (b % 16 * 4 + c / 64) :: sextetChar (c % 64) :: b64encode rest

/-- Base64-decode ASCII codes back to bytes ('=' terminates a final
partial group). -/
def b64decode : List Nat → List Nat
  | w :: x :: y :: z :: rest =>
      let n1 := charSextet w * 4 + charSextet x / 16
      if y = 61 then [n1]
      else
        let n2 := charSextet x % 16 * 16 + charSextet y / 4
        if z = 61 then [n1, n2]
        else n1 :: n2 :: (charSextet y % 4 * 64 + charSextet z) :: b64decode rest
  | _ => []

lemma charSextet_sextetChar : ∀ s < 64, charSextet (sextetChar s) = s := by decide

lemma sextetChar_ne_61 : ∀ s < 64, sextetChar s ≠ 61 := by decide

lemma b64_arith2 (a b : Nat) (hb : b < 256) :
    a / 4 * 4 + (a % 4 * 16 + b / 16) / 16 = a := by
  generalize hu : a % 4 = u at *
  generalize hv : b / 16 = v at *
  have h1 : v < 16 := by omega
  have h2 : (u * 16 + v) / 16 = u := by omega
  omega

lemma b64_arith4 (a b c : Nat) (hb : b < 256) (hc : c < 256) :
    (a % 4 * 16 + b / 16) % 16 * 16 + (b % 16 * 4 + c / 64) / 4 = b := by
  generalize hu : a % 4 = u at *
  generalize hv : b / 16 = v at *
  generalize hw : b % 16 = w at *
  generalize hx : c / 64 = x at *
  have h1 : v < 16 := by omega
  have h2 : x < 4 := by omega
  have h3 : (u * 16 + v) % 16 = v := by omega
  have h4 : (w * 4 + x) / 4 = w := by omega
  omega

lemma b64_arith5 (b c : Nat) (hc : c < 256) :
    (b % 16 * 4 + c / 64) % 4 * 64 + c % 64 = c := by
  generalize hw : b % 16 = w at *
  generalize hx : c / 64 = x at *
  have h2 : x < 4 := by omega
  have h3 : (w * 4 + x) % 4 = x := by omega
  omega

/-- Base64 decoding inverts encoding on valid byte lists. -/
lemma b64_roundtrip : ∀ l : List Nat, Bytes l → b64decode (b64encode l) = l := by
  intro l
  induction l using b64encode.induct with
  | case1 =>
      intro _; rfl
  | case2 a =>
      intro hb
      have ha : a < 256 := hb a (by simp)
      have h1 : a / 4 < 64 := by omega
      have h2 : a % 4 * 16 < 64 := by omega
      simp only [b64encode, b64decode]
      simp only [charSextet_sextetChar _ h1, charSextet_sextetChar _ h2]
      simp
      omega
  | case3 a b =>
      intro hb
      have ha : a < 256 := hb a (by simp)
      have hbb : b < 256 := hb b (by simp)
      have h1 : a / 4 < 64 := by omega
      have h2 : a % 4 * 16 + b / 16 < 64 := by omega
      have h3 : b % 16 * 4 < 64 := by omega
      simp only [b64encode, b64decode]
      rw [if_neg (sextetChar_ne_61 _ h3)]
      simp only [charSextet_sextetChar _ h1, charSextet_sextetChar _ h2,
        charSextet_sextetChar _ h3]
      have h5 : (a % 4 * 16 + b / 16) % 16 = b / 16 := by
        generalize hu : a % 4 = u at *
        generalize hv : b / 16 = v at *
        have : v < 16 := by omega
        omega
      simp [b64_arith2 a b hbb, h5]
      omega
  | case4 a b c rest ih =>
      intro hb
      have ha : a < 256 := hb a (by simp)
      have hbb : b < 256 := hb b (by simp)
      have hc : c < 256 := hb c (by simp)
      have hrest : Bytes rest := fun x hx => hb x (by simp [hx])
      have h1 : a / 4 < 64 := by omega
      have h2 : a % 4 * 16 + b / 16 < 64 := by omega
      have h3 : b % 16 * 4 + c / 64 < 64 := by omega
      have h4 : c % 64 < 64 := by omega
      simp only [b64encode, b64decode]
      rw [if_neg (sextetChar_ne_61 _ h3), if_neg (sextetChar_ne_61 _ h4)]
      simp only [charSextet_sextetChar _ h1, charSextet_sextetChar _ h2,
        charSextet_sextetChar _ h3, charSextet_sextetChar _ h4]
      rw [ih hrest]
      rw [b64_arith2 a b hbb, b64_arith4 a b c hbb hc, b64_arith5 b c hc]

/-! ## Cryptographic primitives

AES-256-GCM (`crypto.createCipheriv('aes-256-gcm', ...)`) and PBKDF2
(`crypto.pbkdf2(password, salt, 100000, 32, 'sha256', ...)`) are modelled by
a parameter structure carrying the functional laws the real primitives
satisfy.  `gcmEnc key iv aad data` returns (ciphertext, authTag);
`gcmDec key iv aad tag ct` returns the plaintext or `none` (a thrown
authentication failure in Node). -/

structure Prims where
  gcmEnc : List Nat → List Nat → List Nat → List Nat → List Nat × List Nat
  gcmDec : List Nat → List Nat → List Nat → List Nat → List Nat → Option (List Nat)
  kdf : String → List Nat → List Nat
  sha256hex : List Nat → String
  enc_dec : ∀ k iv aad d,
    gcmDec k iv aad (gcmEnc k iv aad d).2 (gcmEnc k iv aad d).1 = some d
  ct_len : ∀ k iv aad d, (gcmEnc k iv aad d).1.length = d.length
  tag_len : ∀ k iv aad d, (gcmEnc k iv aad d).2.length = 16
  ct_bytes : ∀ k iv aad d, Bytes d → Bytes (gcmEnc k iv aad d).1
  tag_bytes : ∀ k iv aad d, Bytes (gcmEnc k iv aad d).2
  kdf_len : ∀ p s, (kdf p s).length = 32
  kdf_bytes : ∀ p s, Bytes (kdf p s)

/-- Byte checksum used by the concrete toy instance. -/
def chk (l : List Nat) : Nat := l.foldr (fun a b => (a + b) % 256) 0

lemma chk_lt (l : List Nat) : chk l < 256 := by
  cases l with
  | nil => simp [chk]
  | cons a t => simpa [chk] using Nat.mod_lt _ (by norm_num)

/-- A concrete, trivially invertible instance of the primitive interface,
used only to evaluate closed statements at explicit inputs. -/
def toyPrims : Prims where
  gcmEnc k iv aad d := (d.reverse, List.replicate 16 (chk (k ++ iv ++ aad ++ d)))
  gcmDec k iv aad tag ct :=
    if tag = List.replicate 16 (chk (k ++ iv ++ aad ++ ct.reverse)) then
      some ct.reverse
    else none
  kdf p s := ((p.data.map fun c => Char.toNat c % 256) ++ s.map (· % 256) ++
    List.replicate 32 0).take 32
  sha256hex _ := "h"
  enc_dec := by intro k iv aad d; simp
  ct_len := by intro k iv aad d; simp
  tag_len := by intro k iv aad d; simp
  ct_bytes := by
    intro k iv aad d h b hb
    exact h b (List.mem_reverse.mp hb)
  tag_bytes := by
    intro k iv aad d b hb
    rw [List.eq_of_mem_replicate hb]
    exact chk_lt _
  kdf_len := by
    intro p s
    simp
    omega
  kdf_bytes := by
    intro p s b hb
    have hb2 := List.take_subset _ _ hb
    simp only [List.mem_append, List.mem_map, List.mem_replicate] at hb2
    rcases hb2 with (⟨c, _, rfl⟩ | ⟨x, _, rfl⟩) | ⟨_, rfl⟩
    · exact Nat.mod_lt _ (by norm_num)
    · exact Nat.mod_lt _ (by norm_num)
    · norm_num

/-! ## CryptoService (`backend/src/services/crypto.js`) -/

/-- `Buffer.from('DisguiseDrive-v1')`: the fixed associated-data constant
bound into every AES-GCM call (ASCII / UTF-8 codes). -/
def aadConst : List Nat := "DisguiseDrive-v1".data.map Char.toNat

/-- Result shape of `encryptData`. -/
structure EncResult where
  encryptedData : List Nat
  iv : List Nat
  authTag : List Nat
deriving DecidableEq, Repr

/-- `CryptoService.encryptData(data, key)`: generates the 12-byte IV
internally (`crypto.randomBytes(12)`, modelled as the first 12 bytes of the
explicit `entropy` argument), binds the fixed AAD constant, and encrypts
with AES-256-GCM.  The caller cannot supply a nonce. -/
def encryptData (P : Prims) (entropy data key : List Nat) : EncResult :=
  let iv := entropy.take 12
  let r := P.gcmEnc key iv aadConst data
  ⟨r.1, iv, r.2⟩

/-- `CryptoService.decryptData(encryptedData, key, iv, authTag)`: AES-256-GCM
decryption with the same fixed AAD constant; `none` models the thrown
authentication failure. -/
def decryptData (P : Prims) (encryptedData key iv authTag : List Nat) :
    Option (List Nat) :=
  P.gcmDec key iv aadConst authTag encryptedData

/-- `CryptoService.deriveKeyFromPassword(password, salt)`: PBKDF2-SHA256,
100000 iterations, 32-byte output (the function body uses `crypto.pbkdf2`,
not the argon2 config; both wrap and unwrap call this same function). -/
def deriveKeyFromPassword (P : Prims) (password : String) (salt : List Nat) :
    List Nat :=
  P.kdf password salt

/-- Result shape of `encryptFileKey` (both fields are base64 character
codes, as the source returns base64 strings). -/
structure WrapResult where
  encryptedKeyBlob : List Nat
  salt : List Nat
deriving DecidableEq, Repr

/-- `CryptoService.encryptFileKey(fileKey, password, salt)`: guard against
falsy arguments (for the typed model only `password === ''` is falsy),
derive the password key, AES-GCM-encrypt the file key and concatenate
`IV(12) ‖ AuthTag(16) ‖ Ciphertext`, then base64-encode blob and salt. -/
def encryptFileKey (P : Prims) (entropy fileKey : List Nat) (password : String)
    (salt : List Nat) : Except String WrapResult :=
  if password = "" then
    .error "File key encryption failed: Missing required parameters"
  else
    let passwordKey := deriveKeyFromPassword P password salt
    let r := encryptData P entropy fileKey passwordKey
    let keyBlob := r.iv ++ r.authTag ++ r.encryptedData
    .ok ⟨b64encode keyBlob, b64encode salt⟩

/-- `CryptoService.decryptFileKey(encryptedKeyBlob, password, saltBase64)`:
base64-decode blob and salt, slice `subarray(0,12)`, `subarray(12,28)`,
`subarray(28)` (clamping, as Node subarray does), derive the password key
with the same `deriveKeyFromPassword`, and AES-GCM-decrypt.  Any failure is
caught and rethrown as a single wrapped error. -/
def decryptFileKey (P : Prims) (encryptedKeyBlob : List Nat) (password : String)
    (saltBase64 : List Nat) : Except String (List Nat) :=
  let keyBlob := b64decode encryptedKeyBlob
  let salt := b64decode saltBase64
  let iv := keyBlob.take 12
  let authTag := (keyBlob.drop 12).take 16
  let encryptedData := keyBlob.drop 28
  let passwordKey := deriveKeyFromPassword P password salt
  match decryptData P encryptedData passwordKey iv authTag with
  | some fileKey => .ok fileKey
  | none => .error "File key decryption failed"

/-- `decryptFileKey` as invoked by the decrypt-key route, which passes the
nullable database fields directly: `Buffer.from(null, 'base64')` throws, and
the function's catch block rethrows, so a `null` blob or salt yields the
same kind of error as a failed decryption. -/
def decryptFileKeyN (P : Prims) (blob : Option (List Nat)) (password : String)
    (salt : Option (List Nat)) : Except String (List Nat) :=
  match blob, salt with
  | some b, some s => decryptFileKey P b password s
  | _, _ => .error "File key decryption failed: argument must be of type string"

/-- Result shape of `encryptFileForStorage`. -/
structure FileEncResult where
  encryptedData : List Nat
  fileKey : List Nat
  iv : List Nat
  authTag : List Nat
deriving DecidableEq, Repr

/-- `CryptoService.encryptFileForStorage(fileData)`: generate a random
32-byte content key (`generateFileKey`, modelled by the first 32 bytes of
`keyEntropy`) and encrypt the payload with it. -/
def encryptFileForStorage (P : Prims) (keyEntropy ivEntropy fileData : List Nat) :
    FileEncResult :=
  let fileKey := keyEntropy.take 32
  let r := encryptData P ivEntropy fileData fileKey
  ⟨r.encryptedData, fileKey, r.iv, r.authTag⟩

/-- `CryptoService.createStorageBlob(encryptedData, iv, authTag)`:
`Buffer.concat([iv, authTag, encryptedData])` (the code after the `return`
statement in the source is unreachable). -/
def createStorageBlob (encryptedData iv authTag : List Nat) : List Nat :=
  iv ++ authTag ++ encryptedData

/-- `buf.readUInt32BE(offset)`: Node throws `ERR_OUT_OF_RANGE` when fewer
than 4 bytes are available at the offset. -/
def readUInt32BE (buf : List Nat) (off : Nat) : Except String Nat :=
  if off + 4 ≤ buf.length then
    .ok (buf.getD off 0 * 16777216 + buf.getD (off + 1) 0 * 65536 +
      buf.getD (off + 2) 0 * 256 + buf.getD (off + 3) 0)
  else .error "ERR_OUT_OF_RANGE"

/-- Result shape of `parseStorageBlob` — note the source returns only
`{ encryptedData, iv }`, with no `authTag`, despite its doc comment. -/
structure ParsedBlob where
  encryptedData : List Nat
  iv : List Nat
deriving DecidableEq, Repr

/-- `CryptoService.parseStorageBlob(storageBlob)`: reads a 4-byte
big-endian metadata length, JSON-parses the metadata (modelled by the
abstract `jsonIvLength`, which extracts `metadata.ivLength` or throws), and
slices IV and ciphertext after the metadata.  This is the legacy
`[len][metadata][iv][data]` layout, not the `IV ‖ AuthTag ‖ Ciphertext`
layout that `createStorageBlob` writes. -/
def parseStorageBlob (jsonIvLength : List Nat → Except String Nat)
    (storageBlob : List Nat) : Except String ParsedBlob :=
  match readUInt32BE storageBlob 0 with
  | .error e => .error e
  | .ok metadataLength =>
    let metadataBuffer := (storageBlob.drop 4).take metadataLength
    match jsonIvLength metadataBuffer with
    | .error e => .error e
    | .ok ivLength =>
      .ok ⟨(storageBlob.drop (4 + metadataLength)).drop ivLength,
           (storageBlob.drop (4 + metadataLength)).take ivLength⟩

/-! ## Data model (Prisma schema) and persistence state

`securityLog` rows carry `ipAddress`, `userAgent` and `metadata` as opaque
request strings; the model keeps the fields the claims are about
(`userId`, `action`, `success`). -/

structure LogRec where
  userId : Option String
  action : String
  success : Bool
deriving DecidableEq, Repr

structure FolderRec where
  id : String
  ownerId : String
  isProtected : Bool
  passwordHash : Option String
deriving DecidableEq, Repr

structure TokenRec where
  token : String
  folderId : String
  userId : String
  expiresAt : Int
deriving DecidableEq, Repr

/-- A `files` row, as the routes see it (Prisma `include`/`select` joins the
containing folder onto the record). -/
structure FileRec where
  id : String
  ownerId : String
  folderId : String
  folder : FolderRec
  encryptedKeyBlob : Option (List Nat)
  salt : Option (List Nat)
  uploadMode : String
  storagePath : String
  coverPath : String
deriving DecidableEq, Repr

/-- Database plus object storage, as seen by one request. Times are Unix
milliseconds (`Date.now()`), as `Int`. -/
structure Db where
  files : List FileRec
  folders : List FolderRec
  tokens : List TokenRec
  storage : List (String × List Nat)
deriving DecidableEq, Repr

/-! ## Access Token Service -/

/-- Token record created by `POST /api/folders/:id/unlock` on a successful
password check (`part_006` lines 240–252): fresh random token with
`expiresAt = new Date(Date.now() + 2 * 60 * 60 * 1000)`. -/
def mkFolderAccessToken (token folderId userId : String) (now : Int) : TokenRec :=
  ⟨token, folderId, userId, now + 2 * 60 * 60 * 1000⟩

/-- `prisma.folderAccessToken.findFirst({ where: { token, folderId, userId,
expiresAt: { gt: new Date() } } })`. -/
def findToken (tokens : List TokenRec) (tok fid uid : String) (now : Int) :
    Option TokenRec :=
  tokens.find? fun r =>
    r.token == tok && r.folderId == fid && r.userId == uid &&
    decide (now < r.expiresAt)

/-! ## `verifyFolderAccess` middleware (`backend/src/middleware/auth.js`
lines 48–110).  The middleware performs no `securityLog` write on any path;
`logsWritten` records the audit entries the call creates. -/

inductive GateOutcome where
  | granted (folder : FolderRec)
  | denied (status : Nat) (msg : String)
deriving DecidableEq, Repr

structure GateResult where
  outcome : GateOutcome
  logsWritten : List LogRec
deriving DecidableEq, Repr

def verifyFolderAccess (folders : List FolderRec) (tokens : List TokenRec)
    (folderId : Option String) (userId : String) (hdr : Option String)
    (now : Int) : GateResult :=
  match folderId with
  | none => ⟨.denied 400 "Folder ID required", []⟩
  | some fid =>
    match folders.find? (fun f => f.id == fid && f.ownerId == userId) with
    | none => ⟨.denied 404 "Folder not found", []⟩
    | some folder =>
      if !folder.isProtected then ⟨.granted folder, []⟩
      else
        match hdr with
        | none => ⟨.denied 403 "Folder access token required", []⟩
        | some tok =>
          match findToken tokens tok fid userId now with
          | none => ⟨.denied 403 "Invalid or expired folder access token", []⟩
          | some _ => ⟨.granted folder, []⟩

/-! ## File routes (`part_005`) -/

/-- Short-circuit response of the inline protected-folder check duplicated
in `GET /:id/encrypted` (lines 360–387) and `POST /:id/decrypt-key`
(lines 443–470): `none` means the check passed. -/
structure GateResp where
  status : Nat
  msg : String
deriving DecidableEq, Repr

def folderGate (tokens : List TokenRec) (isProtected : Bool)
    (folderId userId : String) (hdr : Option String) (now : Int) :
    Option GateResp :=
  if isProtected then
    match hdr with
    | none => some ⟨403, "Folder access token required"⟩
    | some tok =>
      match findToken tokens tok folderId userId now with
      | none => some ⟨403, "Invalid or expired folder access token"⟩
      | some _ => none
  else none

/-- Result of `POST /api/files/:id/decrypt-key`.  `unwrapAttempted` records
whether control reached the `cryptoService.decryptFileKey` call. -/
structure DecryptKeyResult where
  status : Nat
  errorMsg : Option String
  fileKey : Option (List Nat)
  logs : List LogRec
  unwrapAttempted : Bool
deriving DecidableEq, Repr

/-- `POST /api/files/:id/decrypt-key` (`part_005` lines 412–528): password
guard, file lookup by `(id, ownerId)`, inline token gate when the folder is
protected (using `file.folder.id`), then the unwrap attempt; the success
and failure branches each write one `file_unlock_attempt` securityLog row
before responding, and every failure is answered 401 `Invalid password`. -/
def decryptKeyRoute (P : Prims) (db : Db) (fileId userId password : String)
    (hdr : Option String) (now : Int) : DecryptKeyResult :=
  if password = "" then ⟨400, some "Password required", none, [], false⟩
  else
    match db.files.find? (fun f => f.id == fileId && f.ownerId == userId) with
    | none => ⟨404, some "File not found", none, [], false⟩
    | some file =>
      match folderGate db.tokens file.folder.isProtected file.folder.id userId
          hdr now with
      | some resp => ⟨resp.status, some resp.msg, none, [], false⟩
      | none =>
        match decryptFileKeyN P file.encryptedKeyBlob password file.salt with
        | .ok fileKey =>
            ⟨200, none, some fileKey,
             [⟨some userId, "file_unlock_attempt", true⟩], true⟩
        | .error _ =>
            ⟨401, some "Invalid password", none,
             [⟨some userId, "file_unlock_attempt", false⟩], true⟩

/-- Result of `GET /api/files/:id/encrypted`. -/
structure EncryptedResult where
  status : Nat
  errorMsg : Option String
  blobSent : Option (List Nat)
deriving DecidableEq, Repr

/-- `GET /api/files/:id/encrypted` (`part_005` lines 342–406): file lookup,
inline token gate (using `file.folderId`), then the encrypted blob is
downloaded from storage and sent. -/
def encryptedRoute (db : Db) (fileId userId : String) (hdr : Option String)
    (now : Int) : EncryptedResult :=
  match db.files.find? (fun f => f.id == fileId && f.ownerId == userId) with
  | none => ⟨404, some "File not found", none⟩
  | some file =>
    match folderGate db.tokens file.folder.isProtected file.folderId userId
        hdr now with
    | some resp => ⟨resp.status, some resp.msg, none⟩
    | none =>
      match db.storage.find? (fun kv => kv.1 == file.storagePath) with
      | none => ⟨500, some "Failed to get encrypted file", none⟩
      | some kv => ⟨200, none, some kv.2⟩

/-- Result of `DELETE /api/files/:id`.  `filesAfter`/`storageAfter` are the
persistence state after the call. -/
structure DeleteResult where
  status : Nat
  msg : String
  filesAfter : List FileRec
  storageAfter : List (String × List Nat)
deriving DecidableEq, Repr

/-- `DELETE /api/files/:id` (`part_005` lines 534–565): file lookup by
`(id, ownerId)`, storage deletes, database delete.  The handler reads no
`x-folder-token` header and performs no folder-access check of any kind. -/
def deleteRoute (db : Db) (fileId userId : String) : DeleteResult :=
  match db.files.find? (fun f => f.id == fileId && f.ownerId == userId) with
  | none => ⟨404, "File not found", db.files, db.storage⟩
  | some file =>
    let st1 := db.storage.filter fun kv => !(kv.1 == file.storagePath)
    let st2 := st1.filter fun kv => !(kv.1 == file.coverPath)
    ⟨200, "File deleted successfully",
     db.files.filter (fun f => !(f.id == fileId)), st2⟩

/-! ## Upload route `POST /api/folders/:folderId/files` (`part_005`
lines 45–222).  The `authenticateSupabaseToken` / `verifyFolderAccess`
middleware run before the handler; this models the handler body.  External
collaborators are parameters: `validImage` (coverGenerator.validateImage),
`ids` (Prisma row ids), `covers` (cover generation results), `rands`
(per-file randomness for key / content IV / salt / wrap IV). -/

structure UploadFile where
  originalname : String
  mimetype : String
  buffer : List Nat
  size : Nat
deriving DecidableEq, Repr

/-- JS `String.prototype.startsWith`, modelled at the character level. -/
def jsStartsWith (s pre : String) : Bool := pre.data.isPrefixOf s.data

/-- The four `crypto.randomBytes` draws a secure-mode file consumes. -/
structure UploadRand where
  fileKey : List Nat
  contentIv : List Nat
  salt : List Nat
  wrapIv : List Nat

/-- Line 98: `const password = uploadMode === 'secure' ? (passwords[i] ||
passwords[0]) : null` — the first-password fallback.  A missing or empty
(falsy) entry falls back to `passwords[0]` (itself `""` when absent,
modelling `undefined`). -/
def selectedPassword (passwords : List String) (i : Nat) : String :=
  match passwords[i]? with
  | some p => if p = "" then passwords.headD "" else p
  | none => passwords.headD ""

/-- Loop body for one file (lines 101–197): image validation, hash,
secure-mode encrypt + key wrap + storage upload, or normal-mode direct
storage upload, then the `prisma.file.create` record.  Returns the created
record, the storage path and the stored bytes, or the per-file error
message pushed onto `errors`. -/
def processFile (P : Prims) (validImage : List Nat → Bool)
    (newId coverPath : String) (rand : UploadRand) (folder : FolderRec)
    (folderId userId uploadMode password : String) (f : UploadFile) :
    Except String (FileRec × String × List Nat) :=
  let isImage := jsStartsWith f.mimetype "image/"
  if isImage && !(validImage f.buffer) then .error "Invalid image format"
  else
    let fileHash := P.sha256hex f.buffer
    if uploadMode == "secure" then
      let enc := encryptFileForStorage P rand.fileKey rand.contentIv f.buffer
      let storageBlob := createStorageBlob enc.encryptedData enc.iv enc.authTag
      match encryptFileKey P rand.wrapIv enc.fileKey password rand.salt with
      | .error e => .error e
      | .ok wrap =>
        let storagePath := "encrypted/" ++ fileHash ++ "-" ++ f.originalname
        .ok (⟨newId, userId, folderId, folder, some wrap.encryptedKeyBlob,
              some (b64encode rand.salt), uploadMode, storagePath, coverPath⟩,
             storagePath, storageBlob)
    else
      let storagePath := "normal/" ++ fileHash ++ "-" ++ f.originalname
      .ok (⟨newId, userId, folderId, folder, none, none, uploadMode,
            storagePath, coverPath⟩,
           storagePath, f.buffer)

/-- The `for` loop over `req.files` (lines 96–198), accumulating uploaded
records, stored objects and per-file errors. -/
def uploadLoop (P : Prims) (validImage : List Nat → Bool)
    (ids covers : Nat → String) (rands : Nat → UploadRand) (folder : FolderRec)
    (folderId userId uploadMode : String) (passwords : List String) :
    Nat → List UploadFile → List FileRec × List (String × List Nat) × List String
  | _, [] => ([], [], [])
  | i, f :: rest =>
    let password :=
      if uploadMode == "secure" then selectedPassword passwords i else ""
    let r := processFile P validImage (ids i) (covers i) (rands i) folder
      folderId userId uploadMode password f
    let acc := uploadLoop P validImage ids covers rands folder folderId userId
      uploadMode passwords (i + 1) rest
    match r with
    | .ok (rec, path, bytes) => (rec :: acc.1, (path, bytes) :: acc.2.1, acc.2.2)
    | .error e => (acc.1, acc.2.1, e :: acc.2.2)

structure UploadResult where
  status : Nat
  errorMsg : Option String
  filesCreated : List FileRec
  stored : List (String × List Nat)
  logs : List LogRec
  fileErrors : List String

/-- The upload handler: empty-file check, Joi validation of the passwords
array (`Joi.string().min(4)` per item) in secure mode, the
password-count/file-count equality check (lines 85–89), then the per-file
loop, one `file_upload` securityLog row, and the 201 response. -/
def uploadRoute (P : Prims) (validImage : List Nat → Bool)
    (ids covers : Nat → String) (rands : Nat → UploadRand) (folder : FolderRec)
    (folderId userId uploadMode : String) (passwords : List String)
    (files : List UploadFile) : UploadResult :=
  if files.isEmpty then ⟨400, some "No files provided", [], [], [], []⟩
  else if uploadMode == "secure" && !(passwords.all fun p => 4 ≤ p.length) then
    ⟨400, some "Validation failed", [], [], [], []⟩
  else if uploadMode == "secure" && passwords.length != files.length then
    ⟨400, some "Number of passwords must match number of files", [], [], [], []⟩
  else
    let acc := uploadLoop P validImage ids covers rands folder folderId userId
      uploadMode passwords 0 files
    ⟨201, none, acc.1, acc.2.1,
     [⟨some userId, "file_upload", decide (0 < acc.1.length)⟩], acc.2.2⟩

/-! ## Helper lemmas -/

lemma bytes_append {a b : List Nat} (h1 : Bytes a) (h2 : Bytes b) :
    Bytes (a ++ b) := by
  intro x hx
  rcases List.mem_append.mp hx with h | h
  · exact h1 x h
  · exact h2 x h

lemma bytes_take {a : List Nat} (n : Nat) (h : Bytes a) : Bytes (a.take n) :=
  fun x hx => h x (List.take_subset n a hx)

/-- Slicing `IV(12) ‖ AuthTag(16) ‖ Ciphertext` with `subarray(0,12)`,
`subarray(12,28)`, `subarray(28)` recovers the three components. -/
lemma blob_slices (iv tag ct : List Nat) (hiv : iv.length = 12)
    (htag : tag.length = 16) :
    (iv ++ tag ++ ct).take 12 = iv ∧
    ((iv ++ tag ++ ct).drop 12).take 16 = tag ∧
    (iv ++ tag ++ ct).drop 28 = ct := by
  have hd : (iv ++ tag ++ ct).drop 12 = tag ++ ct := by
    rw [List.append_assoc, ← hiv, List.drop_left]
  refine ⟨?_, ?_, ?_⟩
  · rw [List.append_assoc, ← hiv, List.take_left]
  · rw [hd, ← htag, List.take_left]
  · have : (28 : Nat) = 12 + 16 := by norm_num
    rw [this, ← List.drop_drop, hd, ← htag, List.drop_left]

/-! ## C2: key-wrap round trip -/

/-- C2. For every 32-byte ContentKey `K`, every password `P`, and every salt
`S`, unwrapping the KeyBlob produced by `encryptFileKey` with the same
password and salt recovers `K` exactly, and the returned salt field is
`base64(S)`.  Both paths call the same `deriveKeyFromPassword` (the
embedding of PBKDF2-SHA256, 100000 iterations, 32-byte output), so the KDF
is uniform across wrap and unwrap. -/
theorem key_wrap_roundtrip (P : Prims) (K S entropy : List Nat) (pw : String)
    (hK : K.length = 32) (hBK : Bytes K) (hpw : pw ≠ "") (hS : Bytes S)
    (hE : Bytes entropy) (hElen : 12 ≤ entropy.length) :
    ∃ r : WrapResult, encryptFileKey P entropy K pw S = .ok r ∧
      r.salt = b64encode S ∧
      decryptFileKey P r.encryptedKeyBlob pw (b64encode S) = .ok K := by
  have hkey : deriveKeyFromPassword P pw S = P.kdf pw S := rfl
  refine ⟨⟨b64encode (entropy.take 12 ++
      (P.gcmEnc (P.kdf pw S) (entropy.take 12) aadConst K).2 ++
      (P.gcmEnc (P.kdf pw S) (entropy.take 12) aadConst K).1),
    b64encode S⟩, ?_, rfl, ?_⟩
  · simp [encryptFileKey, encryptData, deriveKeyFromPassword, if_neg hpw]
  · have hiv : (entropy.take 12).length = 12 := by
      rw [List.length_take]; omega
    have htag := P.tag_len (P.kdf pw S) (entropy.take 12) aadConst K
    have hBiv : Bytes (entropy.take 12) := bytes_take 12 hE
    have hBtag := P.tag_bytes (P.kdf pw S) (entropy.take 12) aadConst K
    have hBct := P.ct_bytes (P.kdf pw S) (entropy.take 12) aadConst K hBK
    have hBblob : Bytes (entropy.take 12 ++
        (P.gcmEnc (P.kdf pw S) (entropy.take 12) aadConst K).2 ++
        (P.gcmEnc (P.kdf pw S) (entropy.take 12) aadConst K).1) :=
      bytes_append (bytes_append hBiv hBtag) hBct
    obtain ⟨h1, h2, h3⟩ := blob_slices (entropy.take 12)
      (P.gcmEnc (P.kdf pw S) (entropy.take 12) aadConst K).2
      (P.gcmEnc (P.kdf pw S) (entropy.take 12) aadConst K).1 hiv htag
    simp only [decryptFileKey, b64_roundtrip _ hBblob, b64_roundtrip _ hS,
      h1, h2, h3, deriveKeyFromPassword, decryptData]
    rw [P.enc_dec (P.kdf pw S) (entropy.take 12) aadConst K]

/-- Witness for C2 at a concrete instance. -/
theorem key_wrap_roundtrip_witness :
    ∃ r : WrapResult,
      encryptFileKey toyPrims (List.replicate 12 7) (List.replicate 32 1) "pw"
        (List.replicate 32 2) = .ok r ∧
      r.salt = b64encode (List.replicate 32 2) ∧
      decryptFileKey toyPrims r.encryptedKeyBlob "pw"
        (b64encode (List.replicate 32 2)) = .ok (List.replicate 32 1) :=
  key_wrap_roundtrip toyPrims (List.replicate 32 1) (List.replicate 32 2)
    (List.replicate 12 7) "pw" (by decide) (by decide) (by decide) (by decide)
    (by decide) (by decide)

/-! ## C7: AEAD round trip, shared AAD constant, internal IV -/

/-- C7. Decrypting the output of `encryptData` with the same key, IV and
auth tag returns the payload exactly; both calls bind the same fixed
associated-data constant `aadConst` (`'DisguiseDrive-v1'`, shared between
file-content encryption and key wrapping), and the IV in the result is the
12 bytes `encryptData` drew internally from the entropy source — its
signature accepts no caller-supplied nonce. -/
theorem aead_roundtrip (P : Prims) (key payload entropy : List Nat)
    (hE : 12 ≤ entropy.length) :
    decryptData P (encryptData P entropy payload key).encryptedData key
        (encryptData P entropy payload key).iv
        (encryptData P entropy payload key).authTag = some payload ∧
    (encryptData P entropy payload key).iv = entropy.take 12 ∧
    (encryptData P entropy payload key).iv.length = 12 := by
  refine ⟨?_, rfl, ?_⟩
  · simpa [encryptData, decryptData] using
      P.enc_dec key (entropy.take 12) aadConst payload
  · simp only [encryptData, List.length_take]
    omega

/-- Witness for C7 at a concrete instance. -/
theorem aead_roundtrip_witness :
    decryptData toyPrims
        (encryptData toyPrims (List.replicate 12 3) [5, 6, 7] [1]).encryptedData
        [1] (encryptData toyPrims (List.replicate 12 3) [5, 6, 7] [1]).iv
        (encryptData toyPrims (List.replicate 12 3) [5, 6, 7] [1]).authTag =
      some [5, 6, 7] ∧
    (encryptData toyPrims (List.replicate 12 3) [5, 6, 7] [1]).iv =
      (List.replicate 12 3).take 12 ∧
    (encryptData toyPrims (List.replicate 12 3) [5, 6, 7] [1]).iv.length = 12 :=
  aead_roundtrip toyPrims [1] [5, 6, 7] (List.replicate 12 3) (by decide)

/-! ## C10: blob length invariants -/

/-- C10. Every KeyBlob produced by wrapping a 32-byte ContentKey is exactly
60 bytes (12-byte IV, 16-byte tag, 32-byte ciphertext: GCM ciphertext
length equals plaintext length), and every FileBlob produced by
`encryptFileForStorage` plus `createStorageBlob` is exactly 28 bytes longer
than its plaintext payload. -/
theorem blob_length_invariants (P : Prims) (K S wrapEnt keyEnt ivEnt payload :
    List Nat) (pw : String) (hK : K.length = 32) (hBK : Bytes K)
    (hpw : pw ≠ "") (hS : Bytes S) (hW : Bytes wrapEnt)
    (hWlen : 12 ≤ wrapEnt.length) (hIlen : 12 ≤ ivEnt.length) :
    (∀ r : WrapResult, encryptFileKey P wrapEnt K pw S = .ok r →
      (b64decode r.encryptedKeyBlob).length = 60) ∧
    (createStorageBlob
        (encryptFileForStorage P keyEnt ivEnt payload).encryptedData
        (encryptFileForStorage P keyEnt ivEnt payload).iv
        (encryptFileForStorage P keyEnt ivEnt payload).authTag).length =
      payload.length + 28 := by
  constructor
  · intro r hr
    have hiv : (wrapEnt.take 12).length = 12 := by
      rw [List.length_take]; omega
    have hok : r = ⟨b64encode (wrapEnt.take 12 ++
        (P.gcmEnc (P.kdf pw S) (wrapEnt.take 12) aadConst K).2 ++
        (P.gcmEnc (P.kdf pw S) (wrapEnt.take 12) aadConst K).1),
        b64encode S⟩ := by
      have := hr.symm
      rw [encryptFileKey, if_neg hpw] at this
      simpa [encryptData, deriveKeyFromPassword] using
        congrArg (fun e => match e with | .ok v => v | .error _ => r) this
    have hBblob : Bytes (wrapEnt.take 12 ++
        (P.gcmEnc (P.kdf pw S) (wrapEnt.take 12) aadConst K).2 ++
        (P.gcmEnc (P.kdf pw S) (wrapEnt.take 12) aadConst K).1) :=
      bytes_append (bytes_append (bytes_take 12 hW)
        (P.tag_bytes _ _ _ _)) (P.ct_bytes _ _ _ _ hBK)
    rw [hok]
    simp only [b64_roundtrip _ hBblob, List.length_append, hiv,
      P.tag_len, P.ct_len, hK]
  · simp only [createStorageBlob, encryptFileForStorage, encryptData,
      List.length_append, List.length_take, P.tag_len, P.ct_len]
    omega

/-- Witness for C10 at a concrete instance. -/
theorem blob_length_invariants_witness :
    (∀ r : WrapResult,
      encryptFileKey toyPrims (List.replicate 12 5) (List.replicate 32 1) "pw"
        (List.replicate 32 2) = .ok r →
      (b64decode r.encryptedKeyBlob).length = 60) ∧
    (createStorageBlob
        (encryptFileForStorage toyPrims (List.replicate 32 9)
          (List.replicate 12 4) [8, 8]).encryptedData
        (encryptFileForStorage toyPrims (List.replicate 32 9)
          (List.replicate 12 4) [8, 8]).iv
        (encryptFileForStorage toyPrims (List.replicate 32 9)
          (List.replicate 12 4) [8, 8]).authTag).length = 2 + 28 :=
  blob_length_invariants toyPrims (List.replicate 32 1) (List.replicate 32 2)
    (List.replicate 12 5) (List.replicate 32 9) (List.replicate 12 4) [8, 8]
    "pw" (by decide) (by decide) (by decide) (by decide) (by decide)
    (by decide) (by decide)

/-! ## C5: token expiry -/

lemma verify_granted_iff_findToken (folders : List FolderRec)
    (tokens : List TokenRec) (fid uid tok : String) (now : Int)
    (folder : FolderRec)
    (hfind : folders.find? (fun f => f.id == fid && f.ownerId == uid) =
      some folder)
    (hprot : folder.isProtected = true) :
    ((verifyFolderAccess folders tokens (some fid) uid (some tok) now).outcome =
      .granted folder) ↔ (findToken tokens tok fid uid now).isSome := by
  simp only [verifyFolderAccess, hfind, hprot]
  cases h : findToken tokens tok fid uid now <;> simp [h]

/-- C5. A token minted by a successful folder unlock stores
`expiresAt = issuedAt + 2h` exactly, and verification at time `now` is
Granted if and only if a matching `(token, folderId, userId)` record exists
with `expiresAt` strictly greater than `now`; for the freshly minted token
this means Granted strictly before `issuedAt + 2h` and Denied at or after
it. -/
theorem token_expiry (tok fid uid : String) (issuedAt now : Int)
    (folders : List FolderRec) (tokens : List TokenRec) (folder : FolderRec)
    (hfind : folders.find? (fun f => f.id == fid && f.ownerId == uid) =
      some folder)
    (hprot : folder.isProtected = true) :
    (mkFolderAccessToken tok fid uid issuedAt).expiresAt =
      issuedAt + 7200000 ∧
    (((verifyFolderAccess folders tokens (some fid) uid (some tok) now).outcome
        = .granted folder) ↔
      ∃ r ∈ tokens, r.token = tok ∧ r.folderId = fid ∧ r.userId = uid ∧
        now < r.expiresAt) ∧
    (((verifyFolderAccess folders [mkFolderAccessToken tok fid uid issuedAt]
        (some fid) uid (some tok) now).outcome = .granted folder) ↔
      now < issuedAt + 7200000) := by
  refine ⟨by norm_num [mkFolderAccessToken], ?_, ?_⟩
  · rw [verify_granted_iff_findToken folders tokens fid uid tok now folder
      hfind hprot]
    simp [findToken, List.find?_isSome, and_assoc]
  · rw [verify_granted_iff_findToken folders _ fid uid tok now folder
      hfind hprot]
    simp [findToken, mkFolderAccessToken]

/-- Witness for C5 at a concrete instance. -/
theorem token_expiry_witness :
    (mkFolderAccessToken "t" "f1" "u1" 1000).expiresAt = 1000 + 7200000 ∧
    (((verifyFolderAccess [⟨"f1", "u1", true, some "pw"⟩]
        [⟨"t", "f1", "u1", 500⟩] (some "f1") "u1" (some "t") 100).outcome =
        .granted ⟨"f1", "u1", true, some "pw"⟩) ↔
      ∃ r ∈ [(⟨"t", "f1", "u1", 500⟩ : TokenRec)], r.token = "t" ∧
        r.folderId = "f1" ∧ r.userId = "u1" ∧ (100 : Int) < r.expiresAt) ∧
    (((verifyFolderAccess [⟨"f1", "u1", true, some "pw"⟩]
        [mkFolderAccessToken "t" "f1" "u1" 1000] (some "f1") "u1" (some "t")
        100).outcome = .granted ⟨"f1", "u1", true, some "pw"⟩) ↔
      (100 : Int) < 1000 + 7200000) :=
  token_expiry "t" "f1" "u1" 1000 100 [⟨"f1", "u1", true, some "pw"⟩]
    [⟨"t", "f1", "u1", 500⟩] ⟨"f1", "u1", true, some "pw"⟩ (by decide)
    (by decide)

/-! ## C3: uniform unwrap-failure outcome -/

/-- C3. Whenever the unwrap attempt of `POST /:id/decrypt-key` fails — for
any error `e` whatsoever, covering a wrong password, a tampered or
corrupted KeyBlob, and a structurally malformed blob alike — the route
answers exactly 401 `Invalid password` with no key material; the response
does not depend on the failure cause, so the causes are indistinguishable
to the caller. -/
theorem unwrap_failure_uniform (P : Prims) (db : Db) (fileId uid pw : String)
    (hdr : Option String) (now : Int) (file : FileRec) (e : String)
    (hpw : pw ≠ "")
    (hfind : db.files.find? (fun f => f.id == fileId && f.ownerId == uid) =
      some file)
    (hgate : folderGate db.tokens file.folder.isProtected file.folder.id uid
      hdr now = none)
    (hfail : decryptFileKeyN P file.encryptedKeyBlob pw file.salt = .error e) :
    decryptKeyRoute P db fileId uid pw hdr now =
      ⟨401, some "Invalid password", none,
       [⟨some uid, "file_unlock_attempt", false⟩], true⟩ := by
  simp only [decryptKeyRoute, if_neg hpw, hfind, hgate, hfail]

/-- Witness for C3 at a concrete instance (a KeyBlob that fails to
authenticate). -/
theorem unwrap_failure_uniform_witness :
    decryptKeyRoute toyPrims
      ⟨[⟨"file1", "u1", "d1", ⟨"d1", "u1", false, none⟩, some [], some [],
         "secure", "p1", "c1"⟩], [⟨"d1", "u1", false, none⟩], [], []⟩
      "file1" "u1" "x" none 0 =
      ⟨401, some "Invalid password", none,
       [⟨some "u1", "file_unlock_attempt", false⟩], true⟩ :=
  unwrap_failure_uniform toyPrims
    ⟨[⟨"file1", "u1", "d1", ⟨"d1", "u1", false, none⟩, some [], some [],
       "secure", "p1", "c1"⟩], [⟨"d1", "u1", false, none⟩], [], []⟩
    "file1" "u1" "x" none 0
    ⟨"file1", "u1", "d1", ⟨"d1", "u1", false, none⟩, some [], some [],
     "secure", "p1", "c1"⟩
    "File key decryption failed" (by decide) (by decide) (by decide)
    (by rfl)

/-! ## C1: protected-folder operation gating -/

/-- A database with one PROTECTED folder, one secure file in it, its stored
blob, and no access tokens at all. -/
def protectedDb : Db :=
  ⟨[⟨"file1", "u1", "f1", ⟨"f1", "u1", true, some "secret"⟩, some [65],
     some [66], "secure", "p1", "c1"⟩],
   [⟨"f1", "u1", true, some "secret"⟩], [], [("p1", [9])]⟩

/-- Counterexample to C1 as stated: `DELETE /:id` performs no folder-token
verification at all — on a file in a PROTECTED folder, with no token
presented (the handler does not even read the header), it answers 200 and
deletes the file and its stored blob instead of short-circuiting with a
Denied outcome. -/
theorem delete_skips_gate_cex :
    (deleteRoute protectedDb "file1" "u1").status = 200 ∧
    (deleteRoute protectedDb "file1" "u1").filesAfter = [] ∧
    (deleteRoute protectedDb "file1" "u1").storageAfter = [] := by decide

/-- C1 amended: of the three protected-folder file operations, key-unwrap
(`POST /:id/decrypt-key`) and encrypted-blob fetch (`GET /:id/encrypted`)
verify a valid, matching, non-expired folder access token and short-circuit
with a 403 Denied outcome — no unwrap attempted, no blob returned — when no
such token is presented; the delete operation (`DELETE /:id`) performs no
folder-token check and proceeds regardless. -/
theorem protected_gate_short_circuits (P : Prims) (db : Db)
    (fileId uid pw : String) (hdr : Option String) (now : Int) (file : FileRec)
    (hpw : pw ≠ "")
    (hfind : db.files.find? (fun f => f.id == fileId && f.ownerId == uid) =
      some file)
    (hprot : file.folder.isProtected = true)
    (htok : ∀ t, hdr = some t →
      findToken db.tokens t file.folder.id uid now = none ∧
      findToken db.tokens t file.folderId uid now = none) :
    (decryptKeyRoute P db fileId uid pw hdr now).status = 403 ∧
    (decryptKeyRoute P db fileId uid pw hdr now).fileKey = none ∧
    (decryptKeyRoute P db fileId uid pw hdr now).unwrapAttempted = false ∧
    (encryptedRoute db fileId uid hdr now).status = 403 ∧
    (encryptedRoute db fileId uid hdr now).blobSent = none := by
  have hg1 : ∃ m, folderGate db.tokens file.folder.isProtected file.folder.id
      uid hdr now = some ⟨403, m⟩ := by
    cases hdr with
    | none =>
        exact ⟨"Folder access token required", by simp [folderGate, hprot]⟩
    | some t =>
        exact ⟨"Invalid or expired folder access token",
          by simp [folderGate, hprot, (htok t rfl).1]⟩
  have hg2 : ∃ m, folderGate db.tokens file.folder.isProtected file.folderId
      uid hdr now = some ⟨403, m⟩ := by
    cases hdr with
    | none =>
        exact ⟨"Folder access token required", by simp [folderGate, hprot]⟩
    | some t =>
        exact ⟨"Invalid or expired folder access token",
          by simp [folderGate, hprot, (htok t rfl).2]⟩
  obtain ⟨m1, hm1⟩ := hg1
  obtain ⟨m2, hm2⟩ := hg2
  simp [decryptKeyRoute, encryptedRoute, if_neg hpw, hfind, hm1, hm2]

/-- Witness for the amended C1 at a concrete instance (an invalid token is
presented for the protected folder). -/
theorem protected_gate_short_circuits_witness :
    (decryptKeyRoute toyPrims protectedDb "file1" "u1" "pw" (some "bad")
      0).status = 403 ∧
    (decryptKeyRoute toyPrims protectedDb "file1" "u1" "pw" (some "bad")
      0).fileKey = none ∧
    (decryptKeyRoute toyPrims protectedDb "file1" "u1" "pw" (some "bad")
      0).unwrapAttempted = false ∧
    (encryptedRoute protectedDb "file1" "u1" (some "bad") 0).status = 403 ∧
    (encryptedRoute protectedDb "file1" "u1" (some "bad") 0).blobSent = none :=
  protected_gate_short_circuits toyPrims protectedDb "file1" "u1" "pw"
    (some "bad") 0
    ⟨"file1", "u1", "f1", ⟨"f1", "u1", true, some "secret"⟩, some [65],
     some [66], "secure", "p1", "c1"⟩
    (by decide) (by decide) (by decide)
    (by intro t h; exact ⟨rfl, rfl⟩)

/-! ## C4: audit-trail coverage -/

/-- Counterexample to C4 as stated: the token-verify path
(`verifyFolderAccess`) writes no `securityLog` entry on any outcome — here a
Denied verification on a protected folder produces an empty list of audit
writes. -/
theorem verify_writes_no_audit_cex :
    verifyFolderAccess [⟨"f1", "u1", true, some "pw"⟩] [] (some "f1") "u1"
      none 0 = ⟨.denied 403 "Folder access token required", []⟩ := by decide

/-- C4 amended: every unwrap attempt on `POST /:id/decrypt-key`, success or
failure, writes exactly one `file_unlock_attempt` securityLog entry (its
`success` flag matching the cryptographic outcome) before the response is
returned, and every upload request that passes validation writes one
`file_upload` entry — a single entry per request covering its wrap
attempts — before its response; but the token-verify path
(`verifyFolderAccess`) writes no audit entry on any outcome, Granted or
Denied. -/
theorem audit_entries (P : Prims) (db : Db) (fileId uid pw : String)
    (hdr : Option String) (now : Int) (file : FileRec)
    (hpw : pw ≠ "")
    (hfind : db.files.find? (fun f => f.id == fileId && f.ownerId == uid) =
      some file)
    (hgate : folderGate db.tokens file.folder.isProtected file.folder.id uid
      hdr now = none) :
    (decryptKeyRoute P db fileId uid pw hdr now).logs =
      [⟨some uid, "file_unlock_attempt",
        (decryptFileKeyN P file.encryptedKeyBlob pw file.salt).isOk⟩] ∧
    (∀ (validImage : List Nat → Bool) (ids covers : Nat → String)
      (rands : Nat → UploadRand) (folder : FolderRec)
      (folderId uid2 mode : String) (ps : List String)
      (fs : List UploadFile),
      fs.isEmpty = false →
      (mode == "secure" && !(ps.all fun p => 4 ≤ p.length)) = false →
      (mode == "secure" && ps.length != fs.length) = false →
      ∃ b, (uploadRoute P validImage ids covers rands folder folderId uid2
        mode ps fs).logs = [⟨some uid2, "file_upload", b⟩]) ∧
    (∀ (folders : List FolderRec) (tokens : List TokenRec)
      (folderId : Option String) (userId : String) (h : Option String)
      (t : Int),
      (verifyFolderAccess folders tokens folderId userId h t).logsWritten =
        []) := by
  refine ⟨?_, ?_, ?_⟩
  case refine_2 =>
    intro validImage ids covers rands folder folderId uid2 mode ps fs
      hemp hval hcnt
    refine ⟨decide (0 < (uploadLoop P validImage ids covers rands folder
      folderId uid2 mode ps 0 fs).1.length), ?_⟩
    simp only [uploadRoute, hemp, hval, hcnt, Bool.false_eq_true, if_false]
  case refine_1 =>
    cases hfail : decryptFileKeyN P file.encryptedKeyBlob pw file.salt with
    | ok k => simp [decryptKeyRoute, if_neg hpw, hfind, hgate, hfail,
        Except.isOk, Except.toBool]
    | error e => simp [decryptKeyRoute, if_neg hpw, hfind, hgate, hfail,
        Except.isOk, Except.toBool]
  case refine_3 =>
    intro folders tokens folderId userId h t
    cases folderId with
    | none => rfl
    | some fid =>
      simp only [verifyFolderAccess]
      cases hf : folders.find? (fun fo => fo.id == fid && fo.ownerId == userId)
          with
      | none => rfl
      | some folder =>
        cases hp : folder.isProtected with
        | false => simp [hp]
        | true =>
          cases h with
          | none => simp [hp]
          | some tok =>
            cases ht : findToken tokens tok fid userId t with
            | none => simp [hp, ht]
            | some r => simp [hp, ht]

/-- Witness for the amended C4 at a concrete instance. -/
theorem audit_entries_witness :
    (decryptKeyRoute toyPrims
      ⟨[⟨"file1", "u1", "d1", ⟨"d1", "u1", false, none⟩, some [], some [],
         "secure", "p1", "c1"⟩], [⟨"d1", "u1", false, none⟩], [], []⟩
      "file1" "u1" "x" none 0).logs =
      [⟨some "u1", "file_unlock_attempt",
        (decryptFileKeyN toyPrims (some []) "x" (some [])).isOk⟩] ∧
    (∀ (validImage : List Nat → Bool) (ids covers : Nat → String)
      (rands : Nat → UploadRand) (folder : FolderRec)
      (folderId uid2 mode : String) (ps : List String)
      (fs : List UploadFile),
      fs.isEmpty = false →
      (mode == "secure" && !(ps.all fun p => 4 ≤ p.length)) = false →
      (mode == "secure" && ps.length != fs.length) = false →
      ∃ b, (uploadRoute toyPrims validImage ids covers rands folder folderId
        uid2 mode ps fs).logs = [⟨some uid2, "file_upload", b⟩]) ∧
    (∀ (folders : List FolderRec) (tokens : List TokenRec)
      (folderId : Option String) (userId : String) (h : Option String)
      (t : Int),
      (verifyFolderAccess folders tokens folderId userId h t).logsWritten =
        []) :=
  audit_entries toyPrims
    ⟨[⟨"file1", "u1", "d1", ⟨"d1", "u1", false, none⟩, some [], some [],
       "secure", "p1", "c1"⟩], [⟨"d1", "u1", false, none⟩], [], []⟩
    "file1" "u1" "x" none 0
    ⟨"file1", "u1", "d1", ⟨"d1", "u1", false, none⟩, some [], some [],
     "secure", "p1", "c1"⟩
    (by decide) (by decide) (by decide)

/-! ## C6: blob decoding on short inputs -/

/-- C6 is a code bug: `parseStorageBlob` does not implement the documented
`IV(12) ‖ AuthTag(16) ‖ Ciphertext` decode with a 28-byte floor at all — it
still parses the legacy `[len(4)][metadata][iv][data]` layout that
`createStorageBlob` no longer writes (and its own test expects it to
round-trip `createStorageBlob` and return an `authTag` field it does not
have).  On any input shorter than 4 bytes, `buf.readUInt32BE(0)` throws
`ERR_OUT_OF_RANGE` — here evaluated on the 3-byte input `"123"` — rather
than returning a `MalformedBlob` error, for every possible behaviour of the
JSON metadata parser. -/
theorem parse_short_blob_throws (jp : List Nat → Except String Nat) :
    parseStorageBlob jp [49, 50, 51] = .error "ERR_OUT_OF_RANGE" := by
  rfl

/-! ## C8: plain (normal) upload mode -/

/-- Counterexample to C8 as stated: the key-unwrap route does not check
`uploadMode`, so invoked on a plain-mode file (null `encryptedKeyBlob` and
`salt`) it still reaches the `decryptFileKey` call — the read path does
attempt a key unwrap on such a file (which then fails with the uniform
401). -/
theorem plain_file_unwrap_attempt_cex :
    (decryptKeyRoute toyPrims
      ⟨[⟨"file1", "u1", "f1", ⟨"f1", "u1", false, none⟩, none, none,
         "normal", "p1", "c1"⟩], [⟨"f1", "u1", false, none⟩], [], []⟩
      "file1" "u1" "pw" none 0).unwrapAttempted = true ∧
    (decryptKeyRoute toyPrims
      ⟨[⟨"file1", "u1", "f1", ⟨"f1", "u1", false, none⟩, none, none,
         "normal", "p1", "c1"⟩], [⟨"f1", "u1", false, none⟩], [], []⟩
      "file1" "u1" "pw" none 0).status = 401 := by decide

/-- C8 amended: a file uploaded in plain (normal) mode is stored with its
bytes equal to the original payload unchanged, its persisted
`encryptedKeyBlob` and `salt` are null, and its `uploadMode` field is
`'normal'`, distinguishing it from secure mode; the key-unwrap route does
not check `uploadMode`, so invoked on such a file it attempts the unwrap,
which always fails — no key material is ever returned (uniform 401). -/
theorem plain_mode_upload_and_read (P : Prims) (validImage : List Nat → Bool)
    (ids covers : Nat → String) (rands : Nat → UploadRand) (folder : FolderRec)
    (folderId uid : String) (f : UploadFile)
    (himg : jsStartsWith f.mimetype "image/" = true → validImage f.buffer = true)
    (db : Db) (fileId uid2 pw : String) (hdr : Option String) (now : Int)
    (file : FileRec) (hpw : pw ≠ "")
    (hfind : db.files.find? (fun g => g.id == fileId && g.ownerId == uid2) =
      some file)
    (hgate : folderGate db.tokens file.folder.isProtected file.folder.id uid2
      hdr now = none)
    (hplain : file.encryptedKeyBlob = none) :
    (∃ rec : FileRec,
      (uploadRoute P validImage ids covers rands folder folderId uid "normal"
        [] [f]).status = 201 ∧
      (uploadRoute P validImage ids covers rands folder folderId uid "normal"
        [] [f]).filesCreated = [rec] ∧
      (uploadRoute P validImage ids covers rands folder folderId uid "normal"
        [] [f]).stored = [(rec.storagePath, f.buffer)] ∧
      rec.encryptedKeyBlob = none ∧ rec.salt = none ∧
      rec.uploadMode = "normal") ∧
    ((decryptKeyRoute P db fileId uid2 pw hdr now).status = 401 ∧
     (decryptKeyRoute P db fileId uid2 pw hdr now).fileKey = none ∧
     (decryptKeyRoute P db fileId uid2 pw hdr now).unwrapAttempted = true) := by
  constructor
  · have himgF : (jsStartsWith f.mimetype "image/" && !(validImage f.buffer)) =
        false := by
      cases hs : jsStartsWith f.mimetype "image/" with
      | false => simp
      | true => simp [himg hs]
    have hpf : processFile P validImage (ids 0) (covers 0) (rands 0) folder
        folderId uid "normal" "" f =
        .ok (⟨ids 0, uid, folderId, folder, none, none, "normal",
          "normal/" ++ P.sha256hex f.buffer ++ "-" ++ f.originalname,
          covers 0⟩,
         "normal/" ++ P.sha256hex f.buffer ++ "-" ++ f.originalname,
         f.buffer) := by
      simp only [processFile, himgF]
      rfl
    have hloop : uploadLoop P validImage ids covers rands folder folderId uid
        "normal" [] 0 [f] =
        ([⟨ids 0, uid, folderId, folder, none, none, "normal",
           "normal/" ++ P.sha256hex f.buffer ++ "-" ++ f.originalname,
           covers 0⟩],
         [("normal/" ++ P.sha256hex f.buffer ++ "-" ++ f.originalname,
           f.buffer)], []) := by
      have hpw0 : (if (("normal" : String) == "secure") = true then
          selectedPassword ([] : List String) 0 else "") = "" := rfl
      simp only [uploadLoop, hpw0, hpf]
    refine ⟨⟨ids 0, uid, folderId, folder, none, none, "normal",
      "normal/" ++ P.sha256hex f.buffer ++ "-" ++ f.originalname, covers 0⟩,
      ?_, ?_, ?_, rfl, rfl, rfl⟩ <;>
      simp only [uploadRoute, hloop] <;> rfl
  · have hN : decryptFileKeyN P file.encryptedKeyBlob pw file.salt =
        .error "File key decryption failed: argument must be of type string" := by
      rw [hplain]; cases file.salt <;> rfl
    simp only [decryptKeyRoute, if_neg hpw, hfind, hgate, hN]
    exact ⟨trivial, trivial, trivial⟩

/-- Witness for the amended C8 at a concrete instance. -/
theorem plain_mode_upload_and_read_witness :
    (∃ rec : FileRec,
      (uploadRoute toyPrims (fun _ => true) (fun _ => "i") (fun _ => "c")
        (fun _ => ⟨[], [], [], []⟩) ⟨"f1", "u1", false, none⟩ "f1" "u1"
        "normal" [] [⟨"a.png", "image/png", [1, 2], 2⟩]).status = 201 ∧
      (uploadRoute toyPrims (fun _ => true) (fun _ => "i") (fun _ => "c")
        (fun _ => ⟨[], [], [], []⟩) ⟨"f1", "u1", false, none⟩ "f1" "u1"
        "normal" [] [⟨"a.png", "image/png", [1, 2], 2⟩]).filesCreated =
        [rec] ∧
      (uploadRoute toyPrims (fun _ => true) (fun _ => "i") (fun _ => "c")
        (fun _ => ⟨[], [], [], []⟩) ⟨"f1", "u1", false, none⟩ "f1" "u1"
        "normal" [] [⟨"a.png", "image/png", [1, 2], 2⟩]).stored =
        [(rec.storagePath, [1, 2])] ∧
      rec.encryptedKeyBlob = none ∧ rec.salt = none ∧
      rec.uploadMode = "normal") ∧
    ((decryptKeyRoute toyPrims
        ⟨[⟨"file1", "u1", "f1", ⟨"f1", "u1", false, none⟩, none, none,
           "normal", "p1", "c1"⟩], [⟨"f1", "u1", false, none⟩], [], []⟩
        "file1" "u1" "pw" none 0).status = 401 ∧
     (decryptKeyRoute toyPrims
        ⟨[⟨"file1", "u1", "f1", ⟨"f1", "u1", false, none⟩, none, none,
           "normal", "p1", "c1"⟩], [⟨"f1", "u1", false, none⟩], [], []⟩
        "file1" "u1" "pw" none 0).fileKey = none ∧
     (decryptKeyRoute toyPrims
        ⟨[⟨"file1", "u1", "f1", ⟨"f1", "u1", false, none⟩, none, none,
           "normal", "p1", "c1"⟩], [⟨"f1", "u1", false, none⟩], [], []⟩
        "file1" "u1" "pw" none 0).unwrapAttempted = true) :=
  plain_mode_upload_and_read toyPrims (fun _ => true) (fun _ => "i")
    (fun _ => "c") (fun _ => ⟨[], [], [], []⟩) ⟨"f1", "u1", false, none⟩
    "f1" "u1" ⟨"a.png", "image/png", [1, 2], 2⟩ (fun _ => rfl)
    ⟨[⟨"file1", "u1", "f1", ⟨"f1", "u1", false, none⟩, none, none,
       "normal", "p1", "c1"⟩], [⟨"f1", "u1", false, none⟩], [], []⟩
    "file1" "u1" "pw" none 0
    ⟨"file1", "u1", "f1", ⟨"f1", "u1", false, none⟩, none, none, "normal",
     "p1", "c1"⟩
    (by decide) (by decide) (by decide) (by decide)

/-! ## C9: bulk-upload password/file count -/

/-- C9. A secure-mode bulk upload whose password count differs from its
file count is rejected 400 before any file is encrypted or stored (no
records created, no objects stored, no log written); and whenever the
validation passes (counts equal, every password at least 4 characters, so
no entry is falsy), the per-file password selection returns exactly the
i-th password — the first-password fallback of
`passwords[i] || passwords[0]` is unreachable. -/
theorem bulk_password_count_guard (P : Prims) (validImage : List Nat → Bool)
    (ids covers : Nat → String) (rands : Nat → UploadRand) (folder : FolderRec)
    (folderId uid : String) (passwords : List String)
    (files : List UploadFile) (hne : files ≠ [])
    (hmis : passwords.length ≠ files.length) :
    ((uploadRoute P validImage ids covers rands folder folderId uid "secure"
        passwords files).status = 400 ∧
     (uploadRoute P validImage ids covers rands folder folderId uid "secure"
        passwords files).filesCreated = [] ∧
     (uploadRoute P validImage ids covers rands folder folderId uid "secure"
        passwords files).stored = [] ∧
     (uploadRoute P validImage ids covers rands folder folderId uid "secure"
        passwords files).logs = []) ∧
    (∀ (ps : List String) (i : Nat) (h : i < ps.length),
      (∀ p ∈ ps, 4 ≤ p.length) → selectedPassword ps i = ps.get ⟨i, h⟩) := by
  constructor
  · have hemp : files.isEmpty = false := by
      cases files with
      | nil => exact absurd rfl hne
      | cons a t => rfl
    by_cases hall : passwords.all (fun p => 4 ≤ p.length)
    · simp [uploadRoute, hemp, hall, hmis]
    · simp [uploadRoute, hemp, hall]
  · intro ps i h hall
    have hp : 4 ≤ ps[i].length := hall ps[i] (List.getElem_mem h)
    have hne2 : ps[i] ≠ "" := by
      intro he
      rw [he] at hp
      simp at hp
    simp only [selectedPassword, List.getElem?_eq_getElem h,
      List.get_eq_getElem]
    rw [if_neg hne2]

/-- Witness for C9 at a concrete instance (one file, zero passwords). -/
theorem bulk_password_count_guard_witness :
    ((uploadRoute toyPrims (fun _ => true) (fun _ => "i") (fun _ => "c")
        (fun _ => ⟨[], [], [], []⟩) ⟨"f1", "u1", false, none⟩ "f1" "u1"
        "secure" [] [⟨"a.png", "image/png", [1, 2], 2⟩]).status = 400 ∧
     (uploadRoute toyPrims (fun _ => true) (fun _ => "i") (fun _ => "c")
        (fun _ => ⟨[], [], [], []⟩) ⟨"f1", "u1", false, none⟩ "f1" "u1"
        "secure" [] [⟨"a.png", "image/png", [1, 2], 2⟩]).filesCreated = [] ∧
     (uploadRoute toyPrims (fun _ => true) (fun _ => "i") (fun _ => "c")
        (fun _ => ⟨[], [], [], []⟩) ⟨"f1", "u1", false, none⟩ "f1" "u1"
        "secure" [] [⟨"a.png", "image/png", [1, 2], 2⟩]).stored = [] ∧
     (uploadRoute toyPrims (fun _ => true) (fun _ => "i") (fun _ => "c")
        (fun _ => ⟨[], [], [], []⟩) ⟨"f1", "u1", false, none⟩ "f1" "u1"
        "secure" [] [⟨"a.png", "image/png", [1, 2], 2⟩]).logs = []) ∧
    (∀ (ps : List String) (i : Nat) (h : i < ps.length),
      (∀ p ∈ ps, 4 ≤ p.length) → selectedPassword ps i = ps.get ⟨i, h⟩) :=
  bulk_password_count_guard toyPrims (fun _ => true) (fun _ => "i")
    (fun _ => "c") (fun _ => ⟨[], [], [], []⟩) ⟨"f1", "u1", false, none⟩
    "f1" "u1" [] [⟨"a.png", "image/png", [1, 2], 2⟩] (by decide) (by decide)

end DisguiseDrive
